import Mathlib

/-!
Verification of the SIMD abstraction layer
(src/src/simd_abstraction.h, src/src/simd_abstraction.c).

The layer publishes, once per process, an instruction-set family identifier
and a table of five operation implementations (float add/mul/sub, int32 add,
int32 shuffle), chosen by a preprocessor ladder in the header combined with
the capability flags of an external probe (cpu_features.h).

Modelling conventions:
  - 4-lane vectors are `Fin 4 → Nat`, each lane holding the 32-bit pattern
    stored in that lane of the 16-byte buffer (values taken mod 2^32 where
    the code wraps).
  - C `int` shuffle masks are `Int`; the C right shift on a (possibly
    negative) int is modelled as the arithmetic shift, i.e. floor division
    by a power of two (`Int.ediv`, which agrees with floor division for
    positive divisors), and `& 0x3` as `Int.emod 4` (the two agree with the
    two's-complement bit operations).
  - IEEE-754 binary32 addition is not re-implemented; the scalar float ops
    keep it abstract as a parameter acting on 32-bit patterns.  Every
    statement proved about them holds for each choice of that parameter,
    in particular for the real IEEE operation.
  - The preprocessor environment of the build (platform macros, ISA macros,
    and the preprocessor value of the capability-flag identifiers) is a
    structure `PreEnv`; the runtime values of the probe flags after
    `cpu_check_features()` are a structure `cpu_features`.
-/

set_option autoImplicit false

/-- Enum `simd_instruction_set_t` from simd_abstraction.h (values 0..4). -/
inductive simd_instruction_set_t where
  | SIMD_NONE
  | SIMD_SCALAR
  | SIMD_SSE2
  | SIMD_3DNOW
  | SIMD_ALTIVEC
deriving DecidableEq

/-- The numeric value of each enumerator, as declared in the header
(`SIMD_NONE = 0`, then successive values 1..4). -/
def simd_instruction_set_t.toCInt : simd_instruction_set_t → Int
  | .SIMD_NONE => 0
  | .SIMD_SCALAR => 1
  | .SIMD_SSE2 => 2
  | .SIMD_3DNOW => 3
  | .SIMD_ALTIVEC => 4

/-- Identifiers of the concrete implementation functions of
simd_abstraction.c that can be stored in the function table.  The table
slots are modelled as function identities rather than behaviours, so that
"which body was installed" is directly observable. -/
inductive CFun where
  | sse2_add_ps
  | sse2_mul_ps
  | sse2_sub_ps
  | sse2_add_epi32
  | sse2_shuffle_epi32
  | d3now_add_ps
  | d3now_mul_ps
  | d3now_sub_ps
  | altivec_add_ps
  | altivec_mul_ps
  | altivec_sub_ps
  | altivec_add_epi32
  | altivec_shuffle_epi32
  | scalar_add_ps
  | scalar_mul_ps
  | scalar_sub_ps
  | scalar_add_epi32
  | scalar_shuffle_epi32
deriving DecidableEq

/-- Struct `simd_functions_t`: five function-pointer slots; `none` models a
NULL pointer (the static initializer is `{0}`). -/
structure simd_functions_t where
  add_ps : Option CFun
  mul_ps : Option CFun
  sub_ps : Option CFun
  add_epi32 : Option CFun
  shuffle_epi32 : Option CFun
deriving DecidableEq

/-- Preprocessor environment of one build: the platform macros tested by
the ladder in simd_abstraction.h, and the value each capability-flag
identifier has in `#if` arithmetic.  (Per C semantics an identifier that is
not an object-like macro evaluates to 0 there; the fields are kept general
so the theorems cover every possible content of the external header.) -/
structure PreEnv where
  x86 : Bool
  ppc : Bool
  sse2Defined : Bool
  d3nowDefined : Bool
  altivecDefined : Bool
  cpp_x86_cpu_enable_sse2 : Nat
  cpp_x86_cpu_enable_3dnow : Nat
  cpp_ppc_cpu_enable_altivec : Nat
deriving DecidableEq

/-- Runtime values of the capability flags of cpu_features.h after
`cpu_check_features()` has run.  Modelled from the spec: the Capability
Probe (external, not under src/) exposes one stable boolean flag per
accelerated family. -/
structure cpu_features where
  x86_cpu_enable_sse2 : Bool
  x86_cpu_enable_3dnow : Bool
  ppc_cpu_enable_altivec : Bool
deriving DecidableEq

/-- The `USE_*` macro defined by the ladder in simd_abstraction.h (exactly
one of the four is defined per build). -/
inductive use_flag where
  | USE_SSE2
  | USE_3DNOW
  | USE_ALTIVEC
  | USE_SCALAR
deriving DecidableEq

/-- The `#if` ladder of simd_abstraction.h lines 13..38: on x86, SSE2 if
`defined(__SSE2__) && x86_cpu_enable_sse2`, else 3DNow! if
`defined(__3dNOW__) && x86_cpu_enable_3dnow`, else scalar; on PowerPC,
Altivec if `defined(__ALTIVEC__) && ppc_cpu_enable_altivec`, else scalar;
scalar on all other platforms.  The capability identifiers take their
preprocessor values from `PreEnv`. -/
def header_select (pe : PreEnv) : use_flag :=
  if pe.x86 then
    if pe.sse2Defined ∧ pe.cpp_x86_cpu_enable_sse2 ≠ 0 then .USE_SSE2
    else if pe.d3nowDefined ∧ pe.cpp_x86_cpu_enable_3dnow ≠ 0 then .USE_3DNOW
    else .USE_SCALAR
  else if pe.ppc then
    if pe.altivecDefined ∧ pe.cpp_ppc_cpu_enable_altivec ≠ 0 then .USE_ALTIVEC
    else .USE_SCALAR
  else .USE_SCALAR

/-- The 4-lane vector with the given lane values. -/
def vec4 (x0 x1 x2 x3 : Nat) : Fin 4 → Nat := fun i =>
  if i.val = 0 then x0 else if i.val = 1 then x1 else if i.val = 2 then x2 else x3

/-- Body of `scalar_add_ps` (lines 176..183): `fr[i] = fa[i] + fb[i]` in
IEEE-754 binary32 for each of the four lanes.  The IEEE addition on bit
patterns is the parameter `f32add` (kept abstract, see the file header). -/
def scalar_add_ps (f32add : Nat → Nat → Nat) (a b : Fin 4 → Nat) : Fin 4 → Nat :=
  fun i => f32add (a i) (b i)

/-- Body of `scalar_add_epi32` (lines 203..210): `ir[i] = ia[i] + ib[i]`
lane-wise on `int32_t`, two's-complement wraparound, modelled on the bit
patterns as addition mod 2^32. -/
def scalar_add_epi32 (a b : Fin 4 → Nat) : Fin 4 → Nat :=
  fun i => (a i + b i) % 2 ^ 32

/-- The lane index `(mask >> k) & 0x3` computed by `scalar_shuffle_epi32`:
arithmetic right shift of the C int `mask` by `k` bits, then the low two
bits; always in 0..3. -/
def maskLane (mask : Int) (k : Nat) : Fin 4 :=
  ⟨(mask / 2 ^ k % 4).toNat, by
    have h0 : 0 ≤ mask / 2 ^ k % 4 := Int.emod_nonneg _ (by norm_num)
    have h1 : mask / 2 ^ k % 4 < 4 := Int.emod_lt_of_pos _ (by norm_num)
    omega⟩

/-- Body of `scalar_shuffle_epi32` (lines 212..221):
`ir[i] = ia[(mask >> (2*i)) & 0x3]` for each output lane `i` in 0..3. -/
def scalar_shuffle_epi32 (a : Fin 4 → Nat) (mask : Int) : Fin 4 → Nat :=
  fun i => a (maskLane mask (2 * i.val))

/-- Body of `d3now_add_ps` (lines 103..112): the operands and the result
are read through `__m64*`, and `_mm_add_pi32` (modelled from its documented
semantics: lane-wise wrapping 32-bit integer addition on a 64-bit value)
is applied, so only lanes 0 and 1 of the result buffer are written — with
an integer addition of the float bit patterns — while lanes 2 and 3 keep
the previous contents `r` of the result buffer. -/
def d3now_add_ps (a b r : Fin 4 → Nat) : Fin 4 → Nat :=
  fun i => if i.val < 2 then (a i + b i) % 2 ^ 32 else r i

/-- Function table installed by the `USE_SSE2` branch of
`init_simd_functions` (lines 19..24). -/
def sse2_table : simd_functions_t :=
  ⟨some .sse2_add_ps, some .sse2_mul_ps, some .sse2_sub_ps,
   some .sse2_add_epi32, some .sse2_shuffle_epi32⟩

/-- Function table installed by the `USE_3DNOW` branch (lines 30..36); the
two integer slots fall back to the scalar bodies. -/
def d3now_table : simd_functions_t :=
  ⟨some .d3now_add_ps, some .d3now_mul_ps, some .d3now_sub_ps,
   some .scalar_add_epi32, some .scalar_shuffle_epi32⟩

/-- Function table installed by the `USE_ALTIVEC` branch (lines 42..47). -/
def altivec_table : simd_functions_t :=
  ⟨some .altivec_add_ps, some .altivec_mul_ps, some .altivec_sub_ps,
   some .altivec_add_epi32, some .altivec_shuffle_epi32⟩

/-- Function table installed by the scalar branch (lines 51..56). -/
def scalar_table : simd_functions_t :=
  ⟨some .scalar_add_ps, some .scalar_mul_ps, some .scalar_sub_ps,
   some .scalar_add_epi32, some .scalar_shuffle_epi32⟩

/-- The static initializer of `simd_funcs` (line 8): `{0}`, all slots NULL. -/
def empty_funcs : simd_functions_t := ⟨none, none, none, none, none⟩

/-- The module-level mutable state: `current_simd_instruction_set` (line 5)
and `simd_funcs` (line 8). -/
structure proc_state where
  current_simd_instruction_set : simd_instruction_set_t
  simd_funcs : simd_functions_t
deriving DecidableEq

/-- State at process start: `SIMD_NONE` and the zero-initialized table. -/
def initial_state : proc_state := ⟨.SIMD_NONE, empty_funcs⟩

/-- Body of `init_simd_functions` (lines 11..58).  It calls
`cpu_check_features()` (whose effect is that `cf` holds the detected
values) and then branches on the preprocessor-selected `USE_*` macro; each
accelerated branch re-checks the ISA macro (`#ifdef __SSE2__` etc.) before
assigning the five slots and the family, and assigns nothing when that
inner check fails.  The runtime flags `cf` are in scope but never read. -/
def init_simd_functions (pe : PreEnv) (cf : cpu_features) (s : proc_state) : proc_state :=
  match header_select pe with
  | .USE_SSE2 => if pe.sse2Defined then ⟨.SIMD_SSE2, sse2_table⟩ else s
  | .USE_3DNOW => if pe.d3nowDefined then ⟨.SIMD_3DNOW, d3now_table⟩ else s
  | .USE_ALTIVEC => if pe.altivecDefined then ⟨.SIMD_ALTIVEC, altivec_table⟩ else s
  | .USE_SCALAR => ⟨.SIMD_SCALAR, scalar_table⟩

/-- Body of `get_active_simd_instruction_set` (lines 224..229): lazily
initialize when the current family is `SIMD_NONE`, then return it.  The
pair is (returned value, state after the call). -/
def get_active_simd_instruction_set (pe : PreEnv) (cf : cpu_features) (s : proc_state) :
    simd_instruction_set_t × proc_state :=
  let s' := if s.current_simd_instruction_set = .SIMD_NONE then init_simd_functions pe cf s else s
  (s'.current_simd_instruction_set, s')

/-- Body of `get_simd_functions` (lines 231..236): lazily initialize when
the current family is `SIMD_NONE`, then return the table. -/
def get_simd_functions (pe : PreEnv) (cf : cpu_features) (s : proc_state) :
    simd_functions_t × proc_state :=
  let s' := if s.current_simd_instruction_set = .SIMD_NONE then init_simd_functions pe cf s else s
  (s'.simd_funcs, s')

/-- Body of `is_simd_available` (lines 238..251).  The C parameter is an
`int`-typed enum value, so the argument is an `Int`; the switch reads the
runtime capability flags and defaults to 0. -/
def is_simd_available (cf : cpu_features) (instruction_set : Int) : Bool :=
  if instruction_set = simd_instruction_set_t.SIMD_SSE2.toCInt then cf.x86_cpu_enable_sse2
  else if instruction_set = simd_instruction_set_t.SIMD_3DNOW.toCInt then cf.x86_cpu_enable_3dnow
  else if instruction_set = simd_instruction_set_t.SIMD_ALTIVEC.toCInt then cf.ppc_cpu_enable_altivec
  else if instruction_set = simd_instruction_set_t.SIMD_SCALAR.toCInt then true
  else false

/-- One call to either public accessor. -/
inductive api_call where
  | activeFamily
  | operationTable
deriving DecidableEq

/-- State after one accessor call (both accessors mutate the state the same
way). -/
def stepState (pe : PreEnv) (cf : cpu_features) (s : proc_state) : api_call → proc_state
  | .activeFamily => (get_active_simd_instruction_set pe cf s).2
  | .operationTable => (get_simd_functions pe cf s).2

/-- State after a sequence of accessor calls. -/
def runCalls (pe : PreEnv) (cf : cpu_features) : List api_call → proc_state → proc_state
  | [], s => s
  | c :: cs, s => runCalls pe cf cs (stepState pe cf s c)

/-- Value returned by `get_active_simd_instruction_set` when it is called
after the given call history, starting from process start. -/
def activeAfter (pe : PreEnv) (cf : cpu_features) (calls : List api_call) :
    simd_instruction_set_t :=
  (get_active_simd_instruction_set pe cf (runCalls pe cf calls initial_state)).1

/-- The state `init_simd_functions` publishes, read off from its branches
(used as the characterization proved in `init_eq_published`). -/
def publishedState (pe : PreEnv) : proc_state :=
  match header_select pe with
  | .USE_SSE2 => ⟨.SIMD_SSE2, sse2_table⟩
  | .USE_3DNOW => ⟨.SIMD_3DNOW, d3now_table⟩
  | .USE_ALTIVEC => ⟨.SIMD_ALTIVEC, altivec_table⟩
  | .USE_SCALAR => ⟨.SIMD_SCALAR, scalar_table⟩

/-- The table each family's init branch installs (`SIMD_NONE` maps to the
zero-initialized table, which is never published). -/
def tableForFamily : simd_instruction_set_t → simd_functions_t
  | .SIMD_NONE => empty_funcs
  | .SIMD_SCALAR => scalar_table
  | .SIMD_SSE2 => sse2_table
  | .SIMD_3DNOW => d3now_table
  | .SIMD_ALTIVEC => altivec_table

/-- All five slots of a table hold a function. -/
def tableFull (t : simd_functions_t) : Prop :=
  t.add_ps.isSome ∧ t.mul_ps.isSome ∧ t.sub_ps.isSome ∧
  t.add_epi32.isSome ∧ t.shuffle_epi32.isSome

instance (t : simd_functions_t) : Decidable (tableFull t) := by
  unfold tableFull; infer_instance

/-- Whatever the build environment, `init_simd_functions` publishes exactly
the state read off from its selected branch: the inner `#ifdef` re-checks
never fail because the header ladder only selects a family whose ISA macro
is defined. -/
theorem init_eq_published (pe : PreEnv) (cf : cpu_features) (s : proc_state) :
    init_simd_functions pe cf s = publishedState pe := by
  unfold init_simd_functions publishedState
  cases h : header_select pe with
  | USE_SSE2 =>
      have hd : pe.sse2Defined = true := by
        unfold header_select at h
        split_ifs at h <;> simp_all
      simp [hd]
  | USE_3DNOW =>
      have hd : pe.d3nowDefined = true := by
        unfold header_select at h
        split_ifs at h <;> simp_all
      simp [hd]
  | USE_ALTIVEC =>
      have hd : pe.altivecDefined = true := by
        unfold header_select at h
        split_ifs at h <;> simp_all
      simp [hd]
  | USE_SCALAR => rfl

/-- The published family is never the `SIMD_NONE` sentinel. -/
theorem published_ne_none (pe : PreEnv) :
    (publishedState pe).current_simd_instruction_set ≠ .SIMD_NONE := by
  unfold publishedState
  cases h : header_select pe <;> simp

/-- The published table is the one `tableForFamily` associates with the
published family. -/
theorem published_consistent (pe : PreEnv) :
    (publishedState pe).simd_funcs
      = tableForFamily (publishedState pe).current_simd_instruction_set := by
  unfold publishedState
  cases h : header_select pe <;> rfl

/-- Every slot of the published table is non-NULL. -/
theorem published_full (pe : PreEnv) : tableFull (publishedState pe).simd_funcs := by
  unfold publishedState
  cases h : header_select pe <;> simp <;> decide

/-- A first accessor call from process start publishes the selected state. -/
theorem step_initial (pe : PreEnv) (cf : cpu_features) (c : api_call) :
    stepState pe cf initial_state c = publishedState pe := by
  cases c <;>
    simp [stepState, get_active_simd_instruction_set, get_simd_functions,
      initial_state, init_eq_published]

/-- An accessor call on the already-published state changes nothing. -/
theorem step_published (pe : PreEnv) (cf : cpu_features) (c : api_call) :
    stepState pe cf (publishedState pe) c = publishedState pe := by
  cases c <;>
    simp [stepState, get_active_simd_instruction_set, get_simd_functions,
      published_ne_none pe]

/-- The only states reachable from process start are the start state and
the published state. -/
theorem runCalls_reach (pe : PreEnv) (cf : cpu_features) (calls : List api_call) :
    ∀ s, (s = initial_state ∨ s = publishedState pe) →
      (runCalls pe cf calls s = initial_state ∨ runCalls pe cf calls s = publishedState pe) := by
  induction calls with
  | nil => intro s hs; exact hs
  | cons c cs ih =>
      intro s hs
      rcases hs with h | h <;> subst h
      · exact ih _ (Or.inr (step_initial pe cf c))
      · exact ih _ (Or.inr (step_published pe cf c))

/-- The state after any call history from process start. -/
theorem runCalls_start (pe : PreEnv) (cf : cpu_features) (calls : List api_call) :
    runCalls pe cf calls initial_state = initial_state
      ∨ runCalls pe cf calls initial_state = publishedState pe :=
  runCalls_reach pe cf calls initial_state (Or.inl rfl)

/-- Unfolding one trailing call of a call history. -/
theorem runCalls_snoc (pe : PreEnv) (cf : cpu_features) (calls : List api_call)
    (c : api_call) (s : proc_state) :
    runCalls pe cf (calls ++ [c]) s = stepState pe cf (runCalls pe cf calls s) c := by
  induction calls generalizing s with
  | nil => rfl
  | cons d ds ih => simpa [runCalls] using ih (stepState pe cf s d)

/-- After at least one accessor call the state is the published state. -/
theorem runCalls_snoc_published (pe : PreEnv) (cf : cpu_features)
    (calls : List api_call) (c : api_call) :
    runCalls pe cf (calls ++ [c]) initial_state = publishedState pe := by
  rw [runCalls_snoc]
  rcases runCalls_start pe cf calls with h | h <;> rw [h]
  · exact step_initial pe cf c
  · exact step_published pe cf c

/-- `get_active_simd_instruction_set` always returns the published family,
whatever the call history before it. -/
theorem activeAfter_eq (pe : PreEnv) (cf : cpu_features) (calls : List api_call) :
    activeAfter pe cf calls = (publishedState pe).current_simd_instruction_set := by
  unfold activeAfter get_active_simd_instruction_set
  rcases runCalls_start pe cf calls with h | h <;> rw [h]
  · simp [initial_state, init_eq_published]
  · simp [published_ne_none pe]

/-- `get_simd_functions` always returns the published table, whatever the
call history before it. -/
theorem tableAfter_eq (pe : PreEnv) (cf : cpu_features) (calls : List api_call) :
    (get_simd_functions pe cf (runCalls pe cf calls initial_state)).1
      = (publishedState pe).simd_funcs := by
  unfold get_simd_functions
  rcases runCalls_start pe cf calls with h | h <;> rw [h]
  · simp [initial_state, init_eq_published]
  · simp [published_ne_none pe]

/-- When all three capability identifiers have preprocessor value 0 (their
value when the external header declares them as runtime variables rather
than macros), the header ladder always selects the scalar family. -/
theorem header_select_runtime_flags (pe : PreEnv)
    (h1 : pe.cpp_x86_cpu_enable_sse2 = 0) (h2 : pe.cpp_x86_cpu_enable_3dnow = 0)
    (h3 : pe.cpp_ppc_cpu_enable_altivec = 0) :
    header_select pe = .USE_SCALAR := by
  unfold header_select
  split_ifs <;> simp_all

/-- C1: the claim says the family published into the process-wide state is
selected by a runtime capability check.  In the code it is not: the family
returned by `get_active_simd_instruction_set` is a constant function of the
runtime probe flags — two executions of the same build whose probes report
arbitrarily different capabilities publish the same family — and on an x86
build with `__SSE2__` compiled in whose probe reports SSE2 present, the
published family is still `SIMD_SCALAR`, because the preprocessor ladder
evaluates the (runtime-variable) capability identifiers as the constant 0
and so never defines an accelerated `USE_*` macro. -/
theorem C1_selection_ignores_probe :
    (∀ (pe : PreEnv) (cf cf' : cpu_features) (calls : List api_call),
      activeAfter pe cf calls = activeAfter pe cf' calls)
    ∧ activeAfter ⟨true, false, true, false, false, 0, 0, 0⟩ ⟨true, true, true⟩ []
        = .SIMD_SCALAR := by
  constructor
  · intro pe cf cf' calls
    rw [activeAfter_eq pe cf calls, activeAfter_eq pe cf' calls]
  · decide

/-- C3: `scalar_shuffle_epi32 a mask` puts `a[(mask >> (2*i)) & 0b11]` in
output lane `i`; mask `0b11100100` is the identity and mask `0` broadcasts
lane 0. -/
theorem C3_shuffle_contract :
    (∀ (a : Fin 4 → Nat) (mask : Int) (i : Fin 4),
      scalar_shuffle_epi32 a mask i = a (maskLane mask (2 * i.val)))
    ∧ scalar_shuffle_epi32 (vec4 10 20 30 40) 0xE4 = vec4 10 20 30 40
    ∧ scalar_shuffle_epi32 (vec4 10 20 30 40) 0 = vec4 10 10 10 10 := by
  refine ⟨fun a mask i => rfl, ?_, ?_⟩ <;> funext i <;> fin_cases i <;> decide

/-- C4: `scalar_add_epi32` adds lane-wise with wraparound mod 2^32 and no
trap (it is a total function); in particular `0x7fffffff + 1` wraps to
`0x80000000`. -/
theorem C4_add_epi32_wraparound :
    (∀ (a b : Fin 4 → Nat) (i : Fin 4), scalar_add_epi32 a b i = (a i + b i) % 2 ^ 32)
    ∧ scalar_add_epi32 (vec4 0x7fffffff 0 0 0) (vec4 1 0 0 0) = vec4 0x80000000 0 0 0 := by
  refine ⟨fun a b i => rfl, ?_⟩
  funext i; fin_cases i <;> decide

/-- C5: `get_active_simd_instruction_set` never returns the `SIMD_NONE`
sentinel: for any call history, including the empty one (the very first
call of the process), it returns one of the four concrete families. -/
theorem C5_never_sentinel :
    ∀ (pe : PreEnv) (cf : cpu_features) (calls : List api_call),
      activeAfter pe cf calls = .SIMD_SCALAR ∨ activeAfter pe cf calls = .SIMD_SSE2
      ∨ activeAfter pe cf calls = .SIMD_3DNOW ∨ activeAfter pe cf calls = .SIMD_ALTIVEC := by
  intro pe cf calls
  rw [activeAfter_eq pe cf calls]
  unfold publishedState
  cases h : header_select pe <;> simp

/-- C6: after any accessor call the five slots of the process-wide table
are all non-NULL, and the table returned by `get_simd_functions` is fully
populated whatever the call history before it. -/
theorem C6_table_full_after_access :
    ∀ (pe : PreEnv) (cf : cpu_features) (calls : List api_call) (c : api_call),
      tableFull ((runCalls pe cf (calls ++ [c]) initial_state).simd_funcs)
      ∧ tableFull (get_simd_functions pe cf (runCalls pe cf calls initial_state)).1 := by
  intro pe cf calls c
  rw [runCalls_snoc_published pe cf calls c, tableAfter_eq pe cf calls]
  exact ⟨published_full pe, published_full pe⟩

/-- C7: initialization is idempotent — the family returned is the same
after every call history (in particular across N successive calls, and
before or after a table access); a further accessor call on a populated
state performs no work (the state is unchanged); and after any call the
published table is exactly the one populated from the published family. -/
theorem C7_idempotent_selection :
    ∀ (pe : PreEnv) (cf : cpu_features) (calls calls' : List api_call) (c c' : api_call),
      activeAfter pe cf calls = activeAfter pe cf calls'
      ∧ stepState pe cf (runCalls pe cf (calls ++ [c]) initial_state) c'
          = runCalls pe cf (calls ++ [c]) initial_state
      ∧ (runCalls pe cf (calls ++ [c]) initial_state).simd_funcs
          = tableForFamily
              (runCalls pe cf (calls ++ [c]) initial_state).current_simd_instruction_set := by
  intro pe cf calls calls' c c'
  refine ⟨?_, ?_, ?_⟩
  · rw [activeAfter_eq pe cf calls, activeAfter_eq pe cf calls']
  · rw [runCalls_snoc_published pe cf calls c]
    exact step_published pe cf c'
  · rw [runCalls_snoc_published pe cf calls c]
    exact published_consistent pe

/-- C2: the claim that every family's operations are bit-identical to the
Scalar reference fails at the 3DNow! float addition.  On operands whose
four lanes hold the pattern 0x3F800000 (1.0f), `d3now_add_ps` puts
0x7F000000 in lane 0 — the wrapping integer sum of the bit patterns, not
the IEEE sum 0x40000000 (2.0f) — and, because it writes only the low 64
bits, its output also depends on the previous contents of the result
buffer, so it cannot coincide with `scalar_add_ps` for any lane-wise
float-addition function at all, let alone the IEEE one. -/
theorem C2_d3now_add_ps_diverges :
    d3now_add_ps (vec4 0x3F800000 0x3F800000 0x3F800000 0x3F800000)
        (vec4 0x3F800000 0x3F800000 0x3F800000 0x3F800000) (vec4 0 0 0 0) 0
      = 0x7F000000
    ∧ ¬ ∃ f32add : Nat → Nat → Nat,
        ∀ a b r, d3now_add_ps a b r = scalar_add_ps f32add a b := by
  constructor
  · decide
  · rintro ⟨f, h⟩
    have h1 := congrFun (h (vec4 0 0 0 0) (vec4 0 0 0 0) (vec4 0 0 5 0)) 2
    have h2 := congrFun (h (vec4 0 0 0 0) (vec4 0 0 0 0) (vec4 0 0 7 0)) 2
    simp [d3now_add_ps, scalar_add_ps, vec4] at h1 h2
    omega

/-- C8: `is_simd_available` is unconditionally true for the scalar family,
and — given that the capability identifiers are runtime variables, hence 0
for the preprocessor — it is true of the family `get_active_simd_instruction_set`
returns, after any call history. -/
theorem C8_availability_consistency :
    (∀ cf : cpu_features, is_simd_available cf simd_instruction_set_t.SIMD_SCALAR.toCInt = true)
    ∧ ∀ (pe : PreEnv) (cf : cpu_features) (calls : List api_call),
        pe.cpp_x86_cpu_enable_sse2 = 0 → pe.cpp_x86_cpu_enable_3dnow = 0 →
        pe.cpp_ppc_cpu_enable_altivec = 0 →
        is_simd_available cf (activeAfter pe cf calls).toCInt = true := by
  constructor
  · intro cf
    norm_num [is_simd_available, simd_instruction_set_t.toCInt]
  · intro pe cf calls h1 h2 h3
    rw [activeAfter_eq pe cf calls]
    unfold publishedState
    rw [header_select_runtime_flags pe h1 h2 h3]
    norm_num [is_simd_available, simd_instruction_set_t.toCInt]

/-- Witness for C8 at a concrete build (x86, `__SSE2__` and `__3dNOW__`
compiled in, capability identifiers not macros) and concrete probe. -/
theorem C8_availability_consistency_witness :
    is_simd_available ⟨false, false, false⟩
      (activeAfter ⟨true, false, true, true, false, 0, 0, 0⟩ ⟨false, false, false⟩ []).toCInt
      = true :=
  C8_availability_consistency.2 ⟨true, false, true, true, false, 0, 0, 0⟩
    ⟨false, false, false⟩ [] rfl rfl rfl

/-- C9: `scalar_shuffle_epi32` reads only the low eight bits of its mask:
for every mask (negative ones included, under the arithmetic-shift model of
the C right shift), the result equals the one for `mask % 256`. -/
theorem C9_shuffle_mask_low8 :
    ∀ (a : Fin 4 → Nat) (m : Int),
      scalar_shuffle_epi32 a m = scalar_shuffle_epi32 a (m % 256) := by
  intro a m
  funext i
  unfold scalar_shuffle_epi32
  congr 1
  apply Fin.ext
  simp only [maskLane]
  fin_cases i <;> norm_num <;> omega

/-- C10: `is_simd_available` returns false for the `SIMD_NONE` sentinel
(enum value 0) and for every `int` argument outside the enum's value range
0..4. -/
theorem C10_availability_outside_enum :
    (∀ cf : cpu_features, is_simd_available cf simd_instruction_set_t.SIMD_NONE.toCInt = false)
    ∧ ∀ (cf : cpu_features) (v : Int),
        v ≠ simd_instruction_set_t.SIMD_NONE.toCInt →
        v ≠ simd_instruction_set_t.SIMD_SCALAR.toCInt →
        v ≠ simd_instruction_set_t.SIMD_SSE2.toCInt →
        v ≠ simd_instruction_set_t.SIMD_3DNOW.toCInt →
        v ≠ simd_instruction_set_t.SIMD_ALTIVEC.toCInt →
        is_simd_available cf v = false := by
  constructor
  · intro cf
    norm_num [is_simd_available, simd_instruction_set_t.toCInt]
  · intro cf v h0 h1 h2 h3 h4
    simp only [simd_instruction_set_t.toCInt] at h0 h1 h2 h3 h4
    unfold is_simd_available
    simp only [simd_instruction_set_t.toCInt]
    split_ifs <;> simp_all

/-- Witness for C10 at the out-of-range enum value 7. -/
theorem C10_availability_outside_enum_witness :
    is_simd_available ⟨true, true, true⟩ 7 = false :=
  C10_availability_outside_enum.2 ⟨true, true, true⟩ 7
    (by decide) (by decide) (by decide) (by decide) (by decide)
